import Mathlib

/-!
Verification of the production ETL pipeline (musiliandrew/ETL-Pipeline).

Shallow embedding of the components under `src/backend/etl/`:
`error_handler.py` (RetryHandler, DeadLetterQueue, DataQualityValidator),
`schema_evolution.py` (SchemaRegistry, SchemaDetector, DatabaseMigrator,
SchemaEvolutionManager), `transform.py`, `load.py`, and the orchestrator
`production_pipeline.py` (ProductionETLPipeline.run_pipeline).

Machine-level details that no claim depends on (pandas per-column summary
statistics such as null_count / unique_count / min / max, wall-clock
timestamps, logging) are not modelled; everything the claims quantify over
(control flow, retry counts, registry contents, DataFrame column structure,
result dictionaries) is translated from the source.

The file is laid out as all definitions first, then all theorems.
-/

namespace ETL

/-! ## RetryHandler (`error_handler.py`, `RetryHandler.retry_with_backoff`)

The wrapped operation is modelled as a function from the attempt index to an
`Except` outcome, so that one run of `retry_with_backoff` can see a different
result on every attempt, exactly as a fallible external call would.
The returned triple is (final outcome, number of attempts actually made,
list of backoff waits performed, in seconds, as exact rationals — the source
computes `retry_delay * (2 ** attempt)` on small binary floats, which is
exact arithmetic). -/

/-- One step of `retry_with_backoff`: `attempt` is the 0-based loop index of
`for attempt in range(self.max_retries + 1)`; `fuel` is the number of loop
iterations still allowed (termination measure). -/
def retryGo (maxRetries : Nat) (retryDelay : ℚ) (op : Nat → Except String α) :
    Nat → Nat → Except String α × Nat × List ℚ
  | _, 0 => (.error "loop exhausted", 0, [])
  | attempt, fuel + 1 =>
    match op attempt with
    | .ok a => (.ok a, attempt + 1, [])
    | .error e =>
      if attempt = maxRetries then
        (.error e, attempt + 1, [])
      else
        let waitTime : ℚ := retryDelay * 2 ^ attempt
        let rest := retryGo maxRetries retryDelay op (attempt + 1) fuel
        (rest.1, rest.2.1, waitTime :: rest.2.2)

/-- `RetryHandler.retry_with_backoff`: runs `op` up to `maxRetries + 1` times
(`for attempt in range(self.max_retries + 1)`), re-raising the last error when
`attempt == self.max_retries`, otherwise sleeping
`retry_delay * (2 ** attempt)` seconds and retrying. -/
def retry_with_backoff (maxRetries : Nat) (retryDelay : ℚ)
    (op : Nat → Except String α) : Except String α × Nat × List ℚ :=
  retryGo maxRetries retryDelay op 0 (maxRetries + 1)

/-- An operation that fails on every attempt, with an attempt-identifying
error message, used to observe how many attempts the handler really makes. -/
def alwaysFailingOp (n : Nat) : Except String Unit := .error ("e" ++ toString n)

/-! ## Schema model (`schema_evolution.py`)

Column descriptors in the registry and in a detected schema carry a type
string and a required flag; those are the only fields that
`compare_with_current_schema`, `_handle_compatibility_issues` and the
migrator consult.  The per-column statistics (`null_count`, `unique_count`,
`max_length`, `min_value`, `max_value`) that `detect_schema_from_dataframe`
additionally stores are not modelled: no claim depends on them. -/

/-- The type strings produced by `SchemaDetector.type_mapping` and used in the
registry's column maps. -/
inductive ColType
  | stringT | integerT | floatT | booleanT | dateT | datetimeT
  deriving DecidableEq, Repr

/-- A column entry of a schema's `columns` map: `{"type": ..., "required": ...}`. -/
structure ColInfo where
  ctype : ColType
  required : Bool
  deriving DecidableEq, Repr

/-- A `columns` map, `name -> ColInfo`, as an association list in insertion
order (Python dicts preserve insertion order). -/
abbrev Columns := List (String × ColInfo)

/-- `dict.get`-style lookup on an association list. -/
def lookupCol (cols : Columns) (name : String) : Option ColInfo :=
  (cols.find? (fun p => p.1 = name)).map (·.2)

/-- One entry of `self.schemas["schemas"]`.  Besides the fields below the
source stores `created_at` (wall clock) and, for detected schemas,
`table_name` / `row_count` / `detected_at`; none is read back by any code
path under proof. -/
structure SchemaEntry where
  version : Nat
  description : String
  columns : Columns
  deriving DecidableEq, Repr

/-- One entry of `self.schemas["evolution_history"]` (timestamp omitted). -/
structure EvolutionRecord where
  from_version : Nat
  to_version : Nat
  description : String
  deriving DecidableEq, Repr

/-- The registry document `{current_version, schemas, evolution_history}`
held by `SchemaRegistry`; `schemas` is keyed by the version number (the
source uses its decimal string). -/
structure Registry where
  current_version : Nat
  schemas : List (Nat × SchemaEntry)
  evolution_history : List EvolutionRecord
  deriving DecidableEq, Repr

/-- `dict.get` on the `schemas` map. -/
def lookupSchema (l : List (Nat × SchemaEntry)) (v : Nat) : Option SchemaEntry :=
  (l.find? (fun p => p.1 = v)).map (·.2)

/-- Python dict assignment `d[k] = v`: replace the entry if the key is
present, append otherwise. -/
def insertSchema (l : List (Nat × SchemaEntry)) (v : Nat) (e : SchemaEntry) :
    List (Nat × SchemaEntry) :=
  if (l.find? (fun p => p.1 = v)).isSome then
    l.map (fun p => if p.1 = v then (v, e) else p)
  else
    l ++ [(v, e)]

/-- The initial columns of the default registry built by
`SchemaRegistry._load_registry` when no registry file exists. -/
def initialColumns : Columns :=
  [("user_id", ⟨.stringT, true⟩),
   ("age", ⟨.integerT, true⟩),
   ("sign_up_date", ⟨.dateT, true⟩),
   ("is_active", ⟨.booleanT, true⟩)]

/-- `SchemaRegistry._load_registry`'s default document: version 1, the
initial `users` schema, empty history. -/
def defaultRegistry : Registry :=
  ⟨1, [(1, ⟨1, "Initial schema", initialColumns⟩)], []⟩

/-- `SchemaRegistry.get_current_schema`: the entry stored under
`current_version`, or an empty dict when absent. -/
def get_current_schema (r : Registry) : SchemaEntry :=
  (lookupSchema r.schemas r.current_version).getD ⟨0, "", []⟩

/-- `SchemaRegistry.add_schema_version`: computes
`new_version = current_version + 1`, stores the new entry under that key,
moves `current_version` to it, appends an evolution-history record, and
returns the new version number. -/
def add_schema_version (r : Registry) (newColumns : Columns)
    (description : String) : Registry × Nat :=
  let new_version := r.current_version + 1
  let entry : SchemaEntry := ⟨new_version, description, newColumns⟩
  (⟨new_version,
    insertSchema r.schemas new_version entry,
    r.evolution_history ++ [⟨new_version - 1, new_version, description⟩]⟩,
   new_version)

/-! ## SchemaDetector (`schema_evolution.py`) -/

/-- One element of the `schema_changes` list produced by
`compare_with_current_schema`. -/
inductive SchemaChange
  | column_added (column : String) (details : ColInfo)
  | column_removed (column : String)
  deriving DecidableEq, Repr

/-- Whether a change is a `column_added` (additive) entry. -/
def SchemaChange.isAdded : SchemaChange → Bool
  | .column_added _ _ => true
  | .column_removed _ => false

/-- The column a change refers to. -/
def SchemaChange.column : SchemaChange → String
  | .column_added c _ => c
  | .column_removed c => c

/-- The `type` tag of a compatibility issue. -/
inductive IssueType
  | required_column_missing | type_mismatch
  deriving DecidableEq, Repr

/-- One element of the `compatibility_issues` list; `current_type` /
`detected_type` are only present on `type_mismatch` issues. -/
structure CompatIssue where
  itype : IssueType
  column : String
  severity : String
  current_type : Option ColType := none
  detected_type : Option ColType := none
  deriving DecidableEq, Repr

/-- The dict returned by `SchemaDetector.compare_with_current_schema`. -/
structure Comparison where
  schema_changes : List SchemaChange
  compatibility_issues : List CompatIssue
  is_compatible : Bool
  requires_migration : Bool
  deriving DecidableEq, Repr

/-- `SchemaDetector.compare_with_current_schema`, applied to the detected
`columns` map and the registry.  The Python version iterates over key sets;
here the same partitions are taken in stored order, which fixes one of the
set-iteration orders without changing membership. -/
def compare_with_current_schema (detected_columns : Columns) (r : Registry) :
    Comparison :=
  let current_columns := (get_current_schema r).columns
  -- new_columns = detected - current ; missing_columns = current - detected
  let new_columns := detected_columns.filter
    (fun p => (lookupCol current_columns p.1).isNone)
  let missing_columns := current_columns.filter
    (fun p => (lookupCol detected_columns p.1).isNone)
  let added := new_columns.map (fun p => SchemaChange.column_added p.1 p.2)
  let missingRequiredIssues := missing_columns.filterMap
    (fun p => if p.2.required then
        some { itype := .required_column_missing, column := p.1,
               severity := "high" }
      else none)
  let removed := missing_columns.filterMap
    (fun p => if p.2.required then none
      else some (SchemaChange.column_removed p.1))
  -- type changes across the common columns
  let common := current_columns.filter
    (fun p => (lookupCol detected_columns p.1).isSome)
  let mismatches := common.filterMap (fun p =>
    match lookupCol detected_columns p.1 with
    | some dinfo =>
      if p.2.ctype ≠ dinfo.ctype then
        some { itype := .type_mismatch, column := p.1, severity := "medium",
               current_type := some p.2.ctype,
               detected_type := some dinfo.ctype }
      else none
    | none => none)
  let schema_changes := added ++ removed
  let compatibility_issues := missingRequiredIssues ++ mismatches
  { schema_changes := schema_changes,
    compatibility_issues := compatibility_issues,
    is_compatible := compatibility_issues.isEmpty,
    requires_migration :=
      !schema_changes.isEmpty || !compatibility_issues.isEmpty }

/-! ## DataFrame model

A pandas DataFrame is a list of named columns, each with a dtype and a list
of cell values.  Cell values cover the kinds the pipeline actually moves
around: integers, strings, booleans, calendar dates and nulls (NaN/NaT/None
are collapsed into one null).  Fractional floats are not distinguished from
integers (every numeric literal the code manufactures is integral). -/

/-- Pandas column dtypes the code inspects (`df.dtypes`). -/
inductive Dtype
  | int64 | float64 | object | boolDt | datetime64
  deriving DecidableEq, Repr

/-- A cell value. -/
inductive Val
  | vint (n : Int)
  | vstr (s : String)
  | vbool (b : Bool)
  | vdate (y : Nat) (m : Nat) (d : Nat)
  | vnull
  deriving DecidableEq, Repr

/-- Is a cell null (`isnull`)? -/
def Val.isNull : Val → Bool
  | .vnull => true
  | _ => false

/-- One named column of a DataFrame. -/
structure Column where
  name : String
  dtype : Dtype
  vals : List Val
  deriving DecidableEq, Repr

/-- A DataFrame: columns in order. -/
structure DF where
  cols : List Column
  deriving DecidableEq, Repr

/-- `len(df)`: the row count (length of the first column; 0 if empty). -/
def DF.nrows (df : DF) : Nat :=
  match df.cols with
  | [] => 0
  | c :: _ => c.vals.length

/-- `name in df.columns`. -/
def DF.hasCol (df : DF) (name : String) : Bool :=
  df.cols.any (fun c => c.name = name)

/-- `df[name]`, when present. -/
def DF.getCol (df : DF) (name : String) : Option Column :=
  df.cols.find? (fun c => c.name = name)

/-- `df[name] = column`: replace the column in place if present, append it
otherwise (pandas column assignment). -/
def DF.setCol (df : DF) (col : Column) : DF :=
  if df.hasCol col.name then
    ⟨df.cols.map (fun c => if c.name = col.name then col else c)⟩
  else
    ⟨df.cols ++ [col]⟩

/-- `df[name] = df[name].map(f)`-style update: transform one column's values
and dtype; identity when the column is absent (the callers only touch
columns they know to be present). -/
def DF.mapCol (df : DF) (name : String) (f : Column → Column) : DF :=
  ⟨df.cols.map (fun c => if c.name = name then f c else c)⟩

/-- `df.rename(columns={old: new})`. -/
def DF.rename (df : DF) (old new : String) : DF :=
  ⟨df.cols.map (fun c => if c.name = old then { c with name := new } else c)⟩

/-- `df[names]`: select columns in the given order (all present at call
sites; absent names are skipped rather than raising). -/
def DF.select (df : DF) (names : List String) : DF :=
  ⟨names.filterMap (fun n => df.getCol n)⟩

/-! ## SchemaDetector.detect_schema_from_dataframe -/

/-- `SchemaDetector.type_mapping` (dtypes not in the dict map to "string"). -/
def type_mapping : Dtype → ColType
  | .int64 => .integerT
  | .float64 => .floatT
  | .object => .stringT
  | .boolDt => .booleanT
  | .datetime64 => .datetimeT

/-- `SchemaDetector.detect_schema_from_dataframe`, restricted to the fields
the rest of the system reads back: per column, the mapped type and
`required = not df[col].isnull().any()`. -/
def detect_schema_from_dataframe (df : DF) : Columns :=
  df.cols.map (fun c =>
    (c.name, ⟨type_mapping c.dtype, !(c.vals.any Val.isNull)⟩))

/-! ## Value-level conversions used by `transform.py` and
`_handle_compatibility_issues` -/

/-- `pd.to_numeric(x, errors='coerce')` per cell: integers pass through,
booleans read as 1/0, numeric strings parse, anything unparsable becomes
null.  (Fractional strings would parse to floats in pandas; integral parse
is modelled.) -/
def toNumericCoerce : Val → Val
  | .vint n => .vint n
  | .vbool b => .vint (if b then 1 else 0)
  | .vstr s => match s.toInt? with
    | some n => .vint n
    | none => .vnull
  | .vdate _ _ _ => .vnull
  | .vnull => .vnull

/-- `.fillna(0)` on a numeric column. -/
def fillnaZero : Val → Val
  | .vnull => .vint 0
  | v => v

/-- `transform.py`'s `is_active` token map
`{1: True, 0: False, '1': True, '0': False, True: True, False: False,
'true': True, 'false': False}`; unmapped values become NaN. -/
def transformBoolMap : Val → Val
  | .vint 1 => .vbool true
  | .vint 0 => .vbool false
  | .vstr "1" => .vbool true
  | .vstr "0" => .vbool false
  | .vbool b => .vbool b
  | .vstr "true" => .vbool true
  | .vstr "false" => .vbool false
  | _ => .vnull

/-- `.fillna(False)` on the `is_active` column. -/
def fillnaFalse : Val → Val
  | .vnull => .vbool false
  | v => v

/-- `_handle_compatibility_issues`' narrower string→boolean map
`{'true': True, 'false': False, '1': True, '0': False}` (no fillna
afterwards: unmapped values stay NaN). -/
def strictBoolMap : Val → Val
  | .vstr "true" => .vbool true
  | .vstr "false" => .vbool false
  | .vstr "1" => .vbool true
  | .vstr "0" => .vbool false
  | _ => .vnull

/-- Parse a `YYYY-MM-DD` string. -/
def parseYMD (s : String) : Option (Nat × Nat × Nat) :=
  match (s.splitOn "-").map String.toNat? with
  | [some y, some m, some d] => some (y, m, d)
  | _ => none

/-- `pd.to_datetime(x, errors='coerce')` per cell: dates pass through,
well-formed date strings parse, everything else becomes NaT. -/
def toDatetimeCoerce : Val → Val
  | .vdate y m d => .vdate y m d
  | .vstr s => match parseYMD s with
    | some (y, m, d) => .vdate y m d
    | none => .vnull
  | _ => .vnull

/-- Zero-pad to two digits (strftime `%m` / `%d`). -/
def pad2 (n : Nat) : String :=
  if n < 10 then "0" ++ toString n else toString n

/-- `.dt.strftime('%Y-%m-%d')` per cell (NaT stays null). -/
def strftimeYMD : Val → Val
  | .vdate y m d => .vstr (toString y ++ "-" ++ pad2 m ++ "-" ++ pad2 d)
  | _ => .vnull

/-- `.astype(str)` per cell. -/
def astypeStr : Val → Val
  | .vint n => .vstr (toString n)
  | .vstr s => .vstr s
  | .vbool b => .vstr (if b then "True" else "False")
  | .vdate y m d => .vstr (toString y ++ "-" ++ pad2 m ++ "-" ++ pad2 d)
  | .vnull => .vstr "nan"

/-! ## SchemaEvolutionManager._handle_compatibility_issues -/

/-- Dtype of a mapped column whose values may mix booleans and NaN: pandas
keeps `bool` only when no null is present, `object` otherwise. -/
def boolResultDtype (vals : List Val) : Dtype :=
  if vals.any Val.isNull then .object else .boolDt

/-- Handle one compatibility issue, mirroring the per-issue body of
`_handle_compatibility_issues`: a missing required column is synthesized
only for the four known names (sequential ids for `user_id`, zero for
`age`, `True` for `is_active`, today's date for `sign_up_date`) — any other
column name falls through with no action; a type mismatch applies one of
the three hard-coded coercions, and any other type pair is untouched. -/
def handle_one_issue (today : Nat × Nat × Nat) (df : DF)
    (issue : CompatIssue) : DF :=
  match issue.itype with
  | .required_column_missing =>
    if issue.column = "user_id" then
      df.setCol ⟨"user_id", .int64,
        (List.range df.nrows).map (fun i => .vint (i + 1))⟩
    else if issue.column = "age" then
      df.setCol ⟨"age", .int64, List.replicate df.nrows (.vint 0)⟩
    else if issue.column = "is_active" then
      df.setCol ⟨"is_active", .boolDt, List.replicate df.nrows (.vbool true)⟩
    else if issue.column = "sign_up_date" then
      df.setCol ⟨"sign_up_date", .object,
        List.replicate df.nrows (.vdate today.1 today.2.1 today.2.2)⟩
    else
      df
  | .type_mismatch =>
    match issue.current_type, issue.detected_type with
    | some .integerT, some .stringT =>
      df.mapCol issue.column (fun c =>
        ⟨c.name, .int64, c.vals.map (fun v => fillnaZero (toNumericCoerce v))⟩)
    | some .booleanT, some .stringT =>
      df.mapCol issue.column (fun c =>
        let vals := c.vals.map strictBoolMap
        ⟨c.name, boolResultDtype vals, vals⟩)
    | some .dateT, some .stringT =>
      df.mapCol issue.column (fun c =>
        ⟨c.name, .object, c.vals.map toDatetimeCoerce⟩)
    | _, _ => df

/-- `SchemaEvolutionManager._handle_compatibility_issues`: fold the per-issue
handler over the issue list (the source mutates `df` in a `for` loop). -/
def handle_compatibility_issues (today : Nat × Nat × Nat) (df : DF)
    (issues : List CompatIssue) : DF :=
  issues.foldl (handle_one_issue today) df

/-! ## DatabaseMigrator and SchemaEvolutionManager -/

/-- The durable store as seen by `DatabaseMigrator`: whether creating the
`schema_migrations` table succeeds (its failure is re-raised by
`ensure_migration_table`), and whether the DDL/record statements inside the
`try` succeed (their failure is caught and turned into `False`). -/
structure Engine where
  migration_table_ok : Bool
  ddl_ok : Bool
  deriving DecidableEq, Repr

/-- `DatabaseMigrator.apply_schema_changes`: `True` immediately when there is
nothing to apply; a failure of `ensure_migration_table` propagates as an
exception; any exception inside the `try` (ALTER TABLE statements for
`column_added` entries — `column_removed` is skipped for safety — or the
migration-history INSERT) is caught and returned as `False`; otherwise
`True`. -/
def apply_schema_changes (eng : Engine) (changes : List SchemaChange) :
    Except String Bool :=
  if changes.isEmpty then .ok true
  else if !eng.migration_table_ok then
    .error "Failed to create migration table"
  else .ok eng.ddl_ok

/-- The `evolution_report` dict built by
`process_data_with_schema_evolution`. -/
structure EvolutionReport where
  schema_changed : Bool := false
  migration_applied : Bool := false
  compatibility_issues : List CompatIssue := []
  actions_taken : List String := []
  error : Option String := none
  deriving DecidableEq, Repr

/-- `SchemaEvolutionManager.process_data_with_schema_evolution`: detect the
incoming shape, diff it against the registry, fix compatibility issues
in-memory, apply DDL when an engine is available, and append a new registry
version whenever there are schema changes — note the version is appended
regardless of whether `apply_schema_changes` returned `False`.  An exception
escaping the migration step is caught by the method's `except` clause, which
stamps the error on the report and returns normally. -/
def process_data_with_schema_evolution (today : Nat × Nat × Nat)
    (reg : Registry) (df : DF) (engine : Option Engine) :
    DF × EvolutionReport × Registry :=
  let detected := detect_schema_from_dataframe df
  let comparison := compare_with_current_schema detected reg
  if comparison.requires_migration then
    let report : EvolutionReport :=
      { schema_changed := true,
        compatibility_issues := comparison.compatibility_issues }
    let fixed :=
      if !comparison.is_compatible then
        (handle_compatibility_issues today df comparison.compatibility_issues,
         { report with actions_taken :=
            report.actions_taken ++ ["Applied compatibility fixes"] })
      else (df, report)
    let df1 := fixed.1
    let report1 := fixed.2
    let migStep : Except String EvolutionReport :=
      match engine with
      | some eng =>
        if !comparison.schema_changes.isEmpty then
          match apply_schema_changes eng comparison.schema_changes with
          | .error e => .error e
          | .ok true =>
            .ok { report1 with
                  migration_applied := true
                  actions_taken :=
                    report1.actions_taken ++ ["Applied database migration"] }
          | .ok false => .ok report1
        else .ok report1
      | none => .ok report1
    match migStep with
    | .error e => (df1, { report1 with error := some e }, reg)
    | .ok report2 =>
      if !comparison.schema_changes.isEmpty then
        let desc := "Auto-evolution: " ++
          toString comparison.schema_changes.length ++ " changes"
        let stepped := add_schema_version reg detected desc
        (df1,
         { report2 with actions_taken := report2.actions_taken ++
            ["Updated schema to version " ++ toString stepped.2] },
         stepped.1)
      else (df1, report2, reg)
  else
    (df, {}, reg)

/-- Registry well-formedness: every stored version number is at most
`current_version`.  It holds for the default registry and is preserved by
`add_schema_version`, so it holds for every registry the system produces. -/
def RegistryWF (r : Registry) : Prop :=
  ∀ p ∈ r.schemas, p.1 ≤ r.current_version

/-- A registry whose current schema has a single optional (`required=False`)
`email` column: the shape the registry takes after an evolution appended a
version detected from data in which `email` contained nulls. -/
def regOptionalEmail : Registry :=
  ⟨2,
   [(1, ⟨1, "Initial schema", initialColumns⟩),
    (2, ⟨2, "optional email only", [("email", ⟨.stringT, false⟩)]⟩)],
   []⟩

/-! ## transform (`transform.py`)

`transform` mutates a DataFrame object through four in-place column
assignments, but only after `df = dataFrame.copy()`.  To make "the caller's
object is left unmodified" a real statement, DataFrame objects live in a
heap of frames addressed by reference; `.copy()` allocates a fresh frame and
every `df[...] = ...` writes through the local reference only. -/

/-- The object heap: each pandas DataFrame object is a slot. -/
structure Heap where
  frames : List DF
  deriving DecidableEq, Repr

/-- Allocate a fresh DataFrame object; returns the new heap and the new
reference. -/
def Heap.alloc (h : Heap) (d : DF) : Heap × Nat :=
  (⟨h.frames ++ [d]⟩, h.frames.length)

/-- Dereference (out-of-range reads give an empty frame; `transform` never
performs one). -/
def Heap.get (h : Heap) (r : Nat) : DF :=
  (h.frames.get? r).getD ⟨[]⟩

/-- In-place mutation of the object behind a reference. -/
def Heap.set (h : Heap) (r : Nat) (d : DF) : Heap :=
  ⟨h.frames.set r d⟩

/-- `transform.py`'s `required_columns` list. -/
def transformRequiredColumns : List String :=
  ["user_id", "age", "sign_up_date", "is_active"]

/-- `df['age'] = pd.to_numeric(df['age'], errors='coerce').fillna(0).astype(int)`
as a value-level frame update. -/
def transformAgeFix (df : DF) : DF :=
  df.mapCol "age" (fun c =>
    ⟨c.name, .int64, c.vals.map (fun v => fillnaZero (toNumericCoerce v))⟩)

/-- `df['is_active'] = df['is_active'].map({...}).fillna(False)`. -/
def transformActiveFix (df : DF) : DF :=
  df.mapCol "is_active" (fun c =>
    ⟨c.name, .boolDt, c.vals.map (fun v => fillnaFalse (transformBoolMap v))⟩)

/-- `df['sign_up_date'] = pd.to_datetime(df['sign_up_date'],
errors='coerce').dt.strftime('%Y-%m-%d')`. -/
def transformDateFix (df : DF) : DF :=
  df.mapCol "sign_up_date" (fun c =>
    ⟨c.name, .object, c.vals.map (fun v => strftimeYMD (toDatetimeCoerce v))⟩)

/-- `df['user_id'] = df['user_id'].astype(str)`. -/
def transformUserIdFix (df : DF) : DF :=
  df.mapCol "user_id" (fun c => ⟨c.name, .object, c.vals.map astypeStr⟩)

/-- One guarded in-place column assignment of `transform.py`
(`if name in df.columns: df[...] = ...`), writing through the local
reference `df`. -/
def transformColGuard (h : Heap) (df : Nat) (name : String) (f : DF → DF) :
    Heap :=
  if (h.get df).hasCol name then h.set df (f (h.get df)) else h

/-- The copy plus the optional `signup_date -> sign_up_date` rename
(`df.rename` returns a new object, rebinding the local `df`). -/
def transformCopyPhase (h0 : Heap) (dataFrame : Nat) : Heap × Nat :=
  let alloc1 := h0.alloc (h0.get dataFrame)
  let h1 := alloc1.1
  let df0 := alloc1.2
  if (h1.get df0).hasCol "signup_date" && !((h1.get df0).hasCol "sign_up_date")
  then h1.alloc ((h1.get df0).rename "signup_date" "sign_up_date")
  else (h1, df0)

/-- `transform(dataFrame)`: copy, normalize `signup_date` to `sign_up_date`,
fail on missing required columns, coerce `age` to int (invalid → 0),
map `is_active` tokens to booleans (unclear → False), normalize
`sign_up_date` to `YYYY-MM-DD` strings, stringify `user_id`, and return the
four required columns in fixed order.  Consecutive assignments to the same
column (`to_numeric` then `fillna.astype`, `map` then `fillna`,
`to_datetime` then `strftime`) are composed into one write each. -/
def transform (h0 : Heap) (dataFrame : Nat) : Heap × Except String Nat :=
  let step2 := transformCopyPhase h0 dataFrame
  let h2 := step2.1
  let df := step2.2
  let missing_cols := transformRequiredColumns.filter
    (fun c => !(h2.get df).hasCol c)
  if !missing_cols.isEmpty then
    (h2, .error ("Missing required columns: " ++
      String.intercalate ", " missing_cols))
  else
    let h3 := transformColGuard h2 df "age" transformAgeFix
    let h4 := transformColGuard h3 df "is_active" transformActiveFix
    let h5 := transformColGuard h4 df "sign_up_date" transformDateFix
    let h6 := transformColGuard h5 df "user_id" transformUserIdFix
    -- ready_df = df[required_columns]
    let alloc7 := h6.alloc ((h6.get df).select transformRequiredColumns)
    (alloc7.1, .ok alloc7.2)

/-- `transform` as the pipeline consumes it: run on a one-object heap and
return the resulting frame. -/
def transform_result (d : DF) : Except String DF :=
  match transform ⟨[d]⟩ 0 with
  | (h, .ok r) => .ok (h.get r)
  | (_, .error e) => .error e

/-! ## load (`load.py`) -/

/-- The dict returned by `load_data`. -/
structure LoadResult where
  success : Bool
  rows_loaded : Nat
  message : String
  deriving DecidableEq, Repr

/-- The durable store as `load_data` exercises it: whether
`connect_to_postgres` (its `SELECT 1` probe) succeeds, whether
`ensure_users_table_exists` succeeds, and whether the `to_sql` append
succeeds. -/
structure Store where
  connect_ok : Bool
  table_ok : Bool
  insert_ok : Bool
  deriving DecidableEq, Repr

/-- `load.py`'s `required_columns`. -/
def loadRequiredColumns : List String :=
  ["user_id", "age", "sign_up_date", "is_active"]

/-- `load_data`: raises `ValueError` when required columns are missing (that
check sits before the `try`); every exception inside the `try` — the
`ConnectionError` from `connect_to_postgres`, table creation, the insert —
is caught and converted into a `success: False, rows_loaded: 0` result dict
instead of propagating. -/
def load_data (store : Store) (df : DF) : Except String LoadResult :=
  let missing_cols := loadRequiredColumns.filter (fun c => !df.hasCol c)
  if !missing_cols.isEmpty then
    .error ("DataFrame missing required columns: " ++
      String.intercalate ", " missing_cols)
  else if !store.connect_ok then
    .ok ⟨false, 0, "Load failed: Database connection failed"⟩
  else if !store.table_ok then
    .ok ⟨false, 0, "Load failed: Failed to create users table"⟩
  else if !store.insert_ok then
    .ok ⟨false, 0, "Load failed: insert failed"⟩
  else
    .ok ⟨true, df.nrows,
      "Successfully loaded " ++ toString df.nrows ++ " rows"⟩

/-! ## ProductionETLPipeline (`production_pipeline.py`)

The environment collects every external outcome one run can observe.  The
monitoring and alerting calls (`MetricsCollector`, `AlertingSystem`,
`HealthChecker`) never raise — each wraps its I/O in its own try/except and
health problems only append warnings — so the operations that decide the
run are: preflight file validation, `extract_data` + the dataset-level
quality gate (jointly retried), the schema-evolution engine connection,
`transform`, `load_data`, and the quarantine/archive file moves. -/

structure PipelineEnv where
  /-- The input file exists on disk when the run starts. -/
  file_exists : Bool
  /-- `DataQualityValidator.validate_file` reports `is_valid` (given the
  file exists; a missing file is always invalid). -/
  file_valid : Bool
  /-- `extract_data`'s outcome on each retry attempt. -/
  extract_outcome : Nat → Except String DF
  /-- `validate_data_quality(df)['issues']` (blocking issues only). -/
  quality_issues : DF → List String
  /-- `connect_to_postgres()` for the schema-evolution engine (raises
  `ConnectionError` on failure — this call is NOT retried). -/
  connect_ok : Bool
  /-- The migrator's view of the store. -/
  engine : Engine
  /-- `load_data`'s view of the store. -/
  store : Store
  /-- `DeadLetterQueue.quarantine_file`'s copy + metadata write succeeds. -/
  quarantine_copy_ok : Bool
  /-- `DeadLetterQueue.archive_successful_file`'s move + metadata write
  succeeds. -/
  archive_move_ok : Bool
  registry : Registry
  today : Nat × Nat × Nat
  /-- `pipeline_options['skip_schema_evolution']`. -/
  skip_schema_evolution : Bool

/-- `_run_preflight_checks`: health problems only append warnings; `passed`
is decided by `validate_file`, which fails the gate when the file is
missing or invalid. -/
def preflight_passed (env : PipelineEnv) : Bool :=
  env.file_exists && env.file_valid

/-- `_extract_with_validation` (the operation handed to
`retry_with_backoff`): extract, then raise on any blocking data-quality
issue; warnings are only logged. -/
def extract_with_validation (env : PipelineEnv) (attempt : Nat) :
    Except String DF :=
  match env.extract_outcome attempt with
  | .error e => .error e
  | .ok raw =>
    if !(env.quality_issues raw).isEmpty then
      .error ("Data quality issues: " ++
        String.intercalate "; " (env.quality_issues raw))
    else .ok raw

/-- The dict `run_pipeline` returns (success and failure keys merged;
fields absent from the respective dict stay at their defaults). -/
structure RunResult where
  success : Bool
  failed_stage : Option String := none
  error : Option String := none
  rows_extracted : Nat := 0
  rows_loaded : Nat := 0
  quarantine_path : Option String := none
  archive_path : Option String := none
  message : String := ""
  deriving DecidableEq, Repr

/-- Observable side effects of one run. -/
structure RunTrace where
  extract_attempts : Nat := 0
  load_attempts : Nat := 0
  quarantine_attempted : Bool := false
  quarantine_record_created : Bool := false
  archive_record_created : Bool := false
  deriving DecidableEq, Repr

/-- `DeadLetterQueue.quarantine_file`: returns `""` and creates no record
when the source file no longer exists at its original path, or when the
copy / metadata write fails (that exception is caught); otherwise copies
the artifact with a sidecar `.error` file into `data/deadletter` and
returns the quarantine path. -/
def quarantine_file (env : PipelineEnv) (file_present : Bool) :
    String × Bool :=
  if !file_present then ("", false)
  else if !env.quarantine_copy_ok then ("", false)
  else ("data/deadletter/quarantined", true)

/-- `DeadLetterQueue.archive_successful_file`: `""` and no record when the
file is gone or the move / metadata write fails; otherwise moves the file
into `data/processed` with a sidecar `.processed` file. -/
def archive_successful_file (env : PipelineEnv) (file_present : Bool) :
    String × Bool :=
  if !file_present then ("", false)
  else if !env.archive_move_ok then ("", false)
  else ("data/processed/archived", true)

/-- The `except` clause of `run_pipeline`: finish metrics with status
"failed", alert, quarantine exactly once, and return the failure dict
carrying the stage recorded by the metrics collector at failure time and
the stringified exception. -/
def failRun (env : PipelineEnv) (stage e : String)
    (extract_attempts load_attempts : Nat) : RunResult × RunTrace :=
  let q := quarantine_file env env.file_exists
  ({ success := false, failed_stage := some stage, error := some e,
     quarantine_path := some q.1,
     message := "Production pipeline failed: " ++ e },
   { extract_attempts := extract_attempts, load_attempts := load_attempts,
     quarantine_attempted := true, quarantine_record_created := q.2 })

/-- `ProductionETLPipeline.run_pipeline`.  Stage tracking: the metrics
record starts at stage "extract" (the dataclass default), and
`update_stage` moves it to "extract", "transform", "load" before the
respective stages, so a preflight failure is recorded under stage
"extract".  `load_data` never raises once `transform` has succeeded (the
four columns are present), so the load retry accepts its result dict —
including a `success: False` one — on the first attempt. -/
def run_pipeline (env : PipelineEnv) : RunResult × RunTrace :=
  -- Stage 0: pre-flight checks
  if !preflight_passed env then
    failRun env "extract" "Pre-flight checks failed" 0 0
  else
    -- Stage 1: extract with validation and retry
    match retry_with_backoff 3 1 (extract_with_validation env) with
    | (.error e, attempts, _) => failRun env "extract" e attempts 0
    | (.ok raw, attempts, _) =>
      -- Stage 2: transform with schema evolution
      if !env.skip_schema_evolution && !env.connect_ok then
        failRun env "transform" "Database connection failed" attempts 0
      else
        let engine := if env.skip_schema_evolution then none
          else some env.engine
        let evo := process_data_with_schema_evolution env.today env.registry
          raw engine
        match transform_result evo.1 with
        | .error e => failRun env "transform" e attempts 0
        | .ok clean =>
          -- Stage 3: load with retry
          match retry_with_backoff 3 1 (fun _ => load_data env.store clean)
          with
          | (.error e, lat, _) => failRun env "load" e attempts lat
          | (.ok load_result, lat, _) =>
            -- Stage 4: post-processing (archive; its errors are caught)
            let a := archive_successful_file env env.file_exists
            ({ success := true,
               rows_extracted := raw.nrows,
               rows_loaded := load_result.rows_loaded,
               archive_path := some a.1,
               message := "Production pipeline completed successfully" },
             { extract_attempts := attempts, load_attempts := lat,
               archive_record_created := a.2 })

/-- A detected `columns` map holding one brand-new column (`email`) and one
type-drifted column (`age` read as strings), used as concrete input to the
detector. -/
def detNewAndMismatched : Columns :=
  [("email", ⟨.stringT, false⟩), ("age", ⟨.stringT, true⟩)]

/-- A fixed "today" for `datetime.now().date()`. -/
def today0 : Nat × Nat × Nat := (2026, 10, 12)

/-- A two-row dataset with exactly the four standard columns, dates as
strings (as a CSV read produces them). -/
def dfStd : DF :=
  ⟨[⟨"user_id", .object, [.vstr "u1", .vstr "u2"]⟩,
    ⟨"age", .int64, [.vint 25, .vint 30]⟩,
    ⟨"sign_up_date", .object, [.vstr "2024-01-01", .vstr "2024-01-02"]⟩,
    ⟨"is_active", .boolDt, [.vbool true, .vbool false]⟩]⟩

/-- `dfStd` plus a brand-new `email` column. -/
def dfWithEmail : DF :=
  ⟨dfStd.cols ++ [⟨"email", .object, [.vstr "a@x.com", .vstr "b@x.com"]⟩]⟩

/-- A registry whose current schema additionally marks `email` as required —
the state after an evolution recorded a fully-populated `email` column. -/
def regRequiredEmail : Registry :=
  ⟨2,
   [(1, ⟨1, "Initial schema", initialColumns⟩),
    (2, ⟨2, "email now required",
         initialColumns ++ [("email", ⟨.stringT, true⟩)]⟩)],
   []⟩

/-- An environment in which everything works except the database connection
inside `load_data`. -/
def envLoadFail : PipelineEnv :=
  { file_exists := true, file_valid := true,
    extract_outcome := fun _ => .ok dfStd,
    quality_issues := fun _ => [],
    connect_ok := true, engine := ⟨true, true⟩,
    store := ⟨false, true, true⟩,
    quarantine_copy_ok := true, archive_move_ok := true,
    registry := defaultRegistry, today := today0,
    skip_schema_evolution := false }

/-- An environment whose extracted dataset always carries a blocking
data-quality issue (e.g. 60% null `age`). -/
def envQualityBad : PipelineEnv :=
  { envLoadFail with
    store := ⟨true, true, true⟩,
    quality_issues := fun _ => ["age column 60% null exceeds threshold 10%"] }

/-- An environment in which extraction itself always fails. -/
def envExtractFail : PipelineEnv :=
  { envLoadFail with
    store := ⟨true, true, true⟩,
    extract_outcome := fun _ => .error "File not found: corrupted.csv" }

/-- `envExtractFail` with a quarantine directory that cannot be written. -/
def envExtractFailQBad : PipelineEnv :=
  { envExtractFail with quarantine_copy_ok := false }

/-- An environment whose input file fails `validate_file` (pre-flight). -/
def envPreflightFail : PipelineEnv :=
  { envLoadFail with store := ⟨true, true, true⟩, file_valid := false }


end ETL

namespace ETL

/-! ## Theorem-side helper lemmas -/

/-- `set` keeps the heap size. -/
theorem Heap.length_set (h : Heap) (i : Nat) (d : DF) :
    (h.set i d).frames.length = h.frames.length := by
  simp [Heap.set]

/-- Writing one slot leaves every other slot untouched. -/
theorem Heap.get?_set_ne (h : Heap) {i r : Nat} (d : DF) (hne : i ≠ r) :
    (h.set i d).frames.get? r = h.frames.get? r := by
  simp [Heap.set, List.getElem?_set_ne hne]

/-- Reading back the slot just written. -/
theorem Heap.get_set_self (h : Heap) {i : Nat} (d : DF)
    (hi : i < h.frames.length) : (h.set i d).get i = d := by
  simp [Heap.set, Heap.get, List.getElem?_set_self hi]

/-- Allocation leaves existing slots untouched. -/
theorem Heap.get?_alloc_lt (h : Heap) (x : DF) {r : Nat}
    (hr : r < h.frames.length) :
    (h.alloc x).1.frames.get? r = h.frames.get? r := by
  simp [Heap.alloc, List.getElem?_append_left hr]

/-- Reading the freshly allocated slot. -/
theorem Heap.alloc_get_new (h : Heap) (x : DF) :
    (h.alloc x).1.get (h.alloc x).2 = x := by
  simp [Heap.alloc, Heap.get, List.getElem?_concat_length]

/-- The fresh reference is the old heap size. -/
theorem Heap.alloc_snd (h : Heap) (x : DF) :
    (h.alloc x).2 = h.frames.length := rfl

/-- Allocation grows the heap by one. -/
theorem Heap.alloc_length (h : Heap) (x : DF) :
    (h.alloc x).1.frames.length = h.frames.length + 1 := by
  simp [Heap.alloc]

/-- A guarded column assignment never touches another reference. -/
theorem transformColGuard_get?_ne (h : Heap) {df r : Nat} (n : String)
    (f : DF → DF) (hne : df ≠ r) :
    (transformColGuard h df n f).frames.get? r = h.frames.get? r := by
  unfold transformColGuard
  split
  · exact Heap.get?_set_ne h _ hne
  · rfl

/-- A guarded column assignment keeps the heap size. -/
theorem transformColGuard_length (h : Heap) (df : Nat) (n : String)
    (f : DF → DF) :
    (transformColGuard h df n f).frames.length = h.frames.length := by
  unfold transformColGuard
  split
  · exact Heap.length_set h df _
  · rfl

/-- Reading the assigned reference after a guarded column assignment. -/
theorem transformColGuard_get_self (h : Heap) {df : Nat} (n : String)
    (f : DF → DF) (hdf : df < h.frames.length) :
    (transformColGuard h df n f).get df =
      if (h.get df).hasCol n then f (h.get df) else h.get df := by
  unfold transformColGuard
  split <;> simp_all [Heap.get_set_self h _ hdf]

/-- The copy phase hands back a reference past the original heap. -/
theorem transformCopyPhase_ref_ge (h0 : Heap) (r : Nat) :
    h0.frames.length ≤ (transformCopyPhase h0 r).2 := by
  unfold transformCopyPhase
  dsimp only
  split <;> simp [Heap.alloc]

/-- The copy phase's reference is valid in its heap. -/
theorem transformCopyPhase_ref_lt (h0 : Heap) (r : Nat) :
    (transformCopyPhase h0 r).2 < (transformCopyPhase h0 r).1.frames.length := by
  unfold transformCopyPhase
  dsimp only
  split <;> simp [Heap.alloc]

/-- The copy phase leaves all pre-existing slots untouched. -/
theorem transformCopyPhase_get?_lt (h0 : Heap) (r : Nat) {j : Nat}
    (hj : j < h0.frames.length) :
    (transformCopyPhase h0 r).1.frames.get? j = h0.frames.get? j := by
  unfold transformCopyPhase
  dsimp only
  split
  · rw [Heap.get?_alloc_lt, Heap.get?_alloc_lt _ _ hj]
    rw [Heap.alloc_length]
    omega
  · exact Heap.get?_alloc_lt _ _ hj

/-- The two halves of the copy phase agree with `Prod.mk` of themselves. -/
theorem transformCopyPhase_eta (h0 : Heap) (r : Nat) :
    transformCopyPhase h0 r =
      ((transformCopyPhase h0 r).1, (transformCopyPhase h0 r).2) := rfl

/-- A successful `lookupCol` pinpoints a member of the association list. -/
theorem lookupCol_mem {cols : Columns} {c : String} {i : ColInfo}
    (h : lookupCol cols c = some i) : (c, i) ∈ cols := by
  unfold lookupCol at h
  rcases Option.map_eq_some'.mp h with ⟨p, hfind, hsnd⟩
  have hmem := List.mem_of_find?_eq_some hfind
  have hfst := List.find?_some hfind
  simp only [decide_eq_true_eq] at hfst
  have : p = (c, i) := by
    cases p
    simp_all
  rwa [this] at hmem

/-- `getCol` returns a column bearing the requested name. -/
theorem DF.getCol_name {df : DF} {n : String} {c : Column}
    (h : df.getCol n = some c) : c.name = n := by
  have := List.find?_some h
  simpa using this

/-- `hasCol` agrees with `getCol` succeeding. -/
theorem DF.hasCol_isSome {df : DF} {n : String} :
    df.hasCol n = true ↔ (df.getCol n).isSome := by
  simp [DF.hasCol, DF.getCol, List.any_eq_true, List.find?_isSome]

/-- `hasCol` only looks at the column names. -/
theorem DF.hasCol_names {df : DF} {m : String} :
    df.hasCol m = (df.cols.map Column.name).any (fun s => s = m) := by
  unfold DF.hasCol
  induction df.cols with
  | nil => rfl
  | cons a t ih => simp [List.any_cons, ih]

/-- `mapCol` with a name-preserving update leaves the column-name list
unchanged. -/
theorem DF.mapCol_names {df : DF} {n : String} {f : Column → Column}
    (hf : ∀ c, (f c).name = c.name) :
    (df.mapCol n f).cols.map Column.name = df.cols.map Column.name := by
  simp only [DF.mapCol, List.map_map]
  apply List.map_congr_left
  intro c _
  by_cases hc : c.name = n <;> simp [hc, hf]

/-- `mapCol` with a name-preserving update preserves column presence. -/
theorem DF.mapCol_hasCol {df : DF} {n m : String} {f : Column → Column}
    (hf : ∀ c, (f c).name = c.name) :
    (df.mapCol n f).hasCol m = df.hasCol m := by
  rw [DF.hasCol_names, DF.hasCol_names, DF.mapCol_names hf]

/-- Selecting present columns yields exactly the requested names in the
requested order. -/
theorem DF.select_names {df : DF} : ∀ {names : List String},
    (∀ n ∈ names, df.hasCol n = true) →
    (df.select names).cols.map Column.name = names := by
  intro names
  induction names with
  | nil => intro _; simp [DF.select]
  | cons a l ih =>
    intro hall
    have ha : df.hasCol a = true := hall a (by simp)
    rcases Option.isSome_iff_exists.mp (DF.hasCol_isSome.mp ha) with ⟨c, hc⟩
    have hl := ih (fun n hn => hall n (by simp [hn]))
    simp only [DF.select] at hl ⊢
    simp [List.filterMap_cons, hc, DF.getCol_name hc, hl]

/-- `transformAgeFix` preserves column presence. -/
theorem transformAgeFix_hasCol (df : DF) (m : String) :
    (transformAgeFix df).hasCol m = df.hasCol m :=
  DF.mapCol_hasCol (fun _ => rfl)

/-- `transformActiveFix` preserves column presence. -/
theorem transformActiveFix_hasCol (df : DF) (m : String) :
    (transformActiveFix df).hasCol m = df.hasCol m :=
  DF.mapCol_hasCol (fun _ => rfl)

/-- `transformDateFix` preserves column presence. -/
theorem transformDateFix_hasCol (df : DF) (m : String) :
    (transformDateFix df).hasCol m = df.hasCol m :=
  DF.mapCol_hasCol (fun _ => rfl)

/-- `transformUserIdFix` preserves column presence. -/
theorem transformUserIdFix_hasCol (df : DF) (m : String) :
    (transformUserIdFix df).hasCol m = df.hasCol m :=
  DF.mapCol_hasCol (fun _ => rfl)

/-- Any member's key is found by `lookupCol` (possibly at another pair). -/
theorem lookupCol_isSome_of_mem {cols : Columns} {p : String × ColInfo}
    (h : p ∈ cols) : (lookupCol cols p.1).isSome := by
  unfold lookupCol
  have h' : (cols.find? (fun q => q.1 = p.1)).isSome :=
    List.find?_isSome.mpr ⟨p, h, by simp⟩
  rcases Option.isSome_iff_exists.mp h' with ⟨q, hq⟩
  simp [hq]

end ETL

/-- C3 (counterexample): `RetryHandler(max_retries=3, retry_delay=1.0)` —
the configuration the orchestrator actually constructs — does NOT stop after
the third failure: on an operation that fails every time it makes a fourth
attempt (4 attempts in total, backoff waits 1s, 2s and 4s) and raises the
fourth attempt's error, not the third's.  `range(self.max_retries + 1)`
yields `max_retries + 1` attempts. -/
theorem retry_c3_counterexample :
    ETL.retry_with_backoff 3 1 ETL.alwaysFailingOp =
      (.error "e3", 4, [1, 2, 4]) := by
  simp [ETL.retry_with_backoff, ETL.retryGo, ETL.alwaysFailingOp]
  exact ⟨rfl, by norm_num⟩

/-- C3 (amended): `retry_with_backoff` with `max_retries = 3` and
`retry_delay = 1` second performs up to 4 attempts (the initial attempt plus
3 retries); before retry k (k = 1, 2, 3) it waits `retry_delay * 2 ^ (k-1)`
seconds (1s, 2s, 4s); and when all four attempts fail it raises the
last-seen (fourth) error unchanged, performing no further attempts. -/
theorem retry_c3_amended (op : Nat → Except String α) (es : Nat → String)
    (h : ∀ i, i ≤ 3 → op i = .error (es i)) :
    ETL.retry_with_backoff 3 1 op = (.error (es 3), 4, [1, 2, 4]) := by
  have h0 := h 0 (by norm_num)
  have h1 := h 1 (by norm_num)
  have h2 := h 2 (by norm_num)
  have h3 := h 3 (by norm_num)
  simp [ETL.retry_with_backoff, ETL.retryGo, h0, h1, h2, h3]
  norm_num

/-- Witness for C3 (amended) at the concrete always-failing operation. -/
theorem retry_c3_amended_witness :
    ETL.retry_with_backoff 3 1 ETL.alwaysFailingOp =
      (.error "e3", 4, [1, 2, 4]) :=
  retry_c3_amended ETL.alwaysFailingOp (fun n => "e" ++ toString n)
    (fun _ _ => rfl)

/-- C7: on any well-formed registry, `add_schema_version` assigns the version
`current_version + 1`, which is strictly greater than every stored version
(never skipped or reused); the `schemas` map becomes the old map with the one
new entry appended — every previously stored version is left byte-for-byte
unmodified; `current_version` moves to the new number; and well-formedness is
preserved, so the invariant carries across successive evolutions. -/
theorem add_schema_version_c7 (r : ETL.Registry) (cols : ETL.Columns)
    (d : String) (hinv : ETL.RegistryWF r) :
    (ETL.add_schema_version r cols d).2 = r.current_version + 1 ∧
    (∀ p ∈ r.schemas, p.1 < (ETL.add_schema_version r cols d).2) ∧
    (ETL.add_schema_version r cols d).1.schemas =
      r.schemas ++ [(r.current_version + 1,
                     ⟨r.current_version + 1, d, cols⟩)] ∧
    (ETL.add_schema_version r cols d).1.current_version =
      (ETL.add_schema_version r cols d).2 ∧
    ETL.RegistryWF (ETL.add_schema_version r cols d).1 := by
  have hfresh : r.schemas.find? (fun p => p.1 = r.current_version + 1)
      = none := by
    rw [List.find?_eq_none]
    intro p hp
    have := hinv p hp
    simp only [decide_eq_true_eq]
    omega
  refine ⟨rfl, ?_, ?_, rfl, ?_⟩
  · intro p hp
    have := hinv p hp
    simp only [ETL.add_schema_version]
    omega
  · simp [ETL.add_schema_version, ETL.insertSchema, hfresh]
  · intro p hp
    simp only [ETL.add_schema_version, ETL.insertSchema, hfresh,
      Option.isSome_none, Bool.false_eq_true, if_false, List.mem_append,
      List.mem_singleton] at hp ⊢
    rcases hp with hp | hp
    · have := hinv p hp
      omega
    · simp [hp]

/-- Witness for C7 at the default registry. -/
theorem add_schema_version_c7_witness :
    (ETL.add_schema_version ETL.defaultRegistry
        [("email", ⟨.stringT, false⟩)] "add email").2 = 2 ∧
    (∀ p ∈ ETL.defaultRegistry.schemas,
      p.1 < (ETL.add_schema_version ETL.defaultRegistry
        [("email", ⟨.stringT, false⟩)] "add email").2) ∧
    (ETL.add_schema_version ETL.defaultRegistry
        [("email", ⟨.stringT, false⟩)] "add email").1.schemas =
      ETL.defaultRegistry.schemas ++
        [(2, ⟨2, "add email", [("email", ⟨.stringT, false⟩)]⟩)] ∧
    (ETL.add_schema_version ETL.defaultRegistry
        [("email", ⟨.stringT, false⟩)] "add email").1.current_version =
      (ETL.add_schema_version ETL.defaultRegistry
        [("email", ⟨.stringT, false⟩)] "add email").2 ∧
    ETL.RegistryWF (ETL.add_schema_version ETL.defaultRegistry
        [("email", ⟨.stringT, false⟩)] "add email").1 :=
  add_schema_version_c7 ETL.defaultRegistry
    [("email", ⟨.stringT, false⟩)] "add email"
    (by intro p hp; simp [ETL.defaultRegistry] at hp; simp [hp, ETL.defaultRegistry])

/-- C6 (counterexample): the final conjunct of the claim — "when there are
zero additive changes and zero compatibility issues, no migration is
required" — is false.  Against a registry whose current schema has only an
optional `email` column, an empty detected column map yields no
`column_added` change and no compatibility issue, yet
`requires_migration = True`, because the `column_removed` entry for the
optional column also counts (`len(schema_changes) > 0`). -/
theorem compare_c6_counterexample :
    (ETL.compare_with_current_schema [] ETL.regOptionalEmail).schema_changes.filter
        ETL.SchemaChange.isAdded = [] ∧
    (ETL.compare_with_current_schema [] ETL.regOptionalEmail).compatibility_issues
        = [] ∧
    (ETL.compare_with_current_schema [] ETL.regOptionalEmail).requires_migration
        = true := by
  decide

/-- C6 (amended): for every detected column map compared against the
registry's current schema: a column present in the data but absent from the
registry is classified as an additive `column_added` change and contributes
no compatibility issue; a registry-required column absent from the data
yields a `required_column_missing` compatibility issue of severity `high`;
a common column whose detected type differs from the registered type yields
a `type_mismatch` issue of severity `medium`; and no migration is required
exactly when there are zero schema changes of any kind — additive or
removal of an optional column — and zero compatibility issues. -/
theorem compare_c6_amended (det : ETL.Columns) (r : ETL.Registry) :
    (∀ c info, ETL.lookupCol det c = some info →
      ETL.lookupCol (ETL.get_current_schema r).columns c = none →
      ETL.SchemaChange.column_added c info ∈
        (ETL.compare_with_current_schema det r).schema_changes ∧
      ∀ i ∈ (ETL.compare_with_current_schema det r).compatibility_issues,
        i.column ≠ c) ∧
    (∀ c info,
      ETL.lookupCol (ETL.get_current_schema r).columns c = some info →
      info.required = true → ETL.lookupCol det c = none →
      ({ itype := .required_column_missing, column := c,
         severity := "high" } : ETL.CompatIssue) ∈
        (ETL.compare_with_current_schema det r).compatibility_issues) ∧
    (∀ c ci di,
      ETL.lookupCol (ETL.get_current_schema r).columns c = some ci →
      ETL.lookupCol det c = some di → ci.ctype ≠ di.ctype →
      ({ itype := .type_mismatch, column := c, severity := "medium",
         current_type := some ci.ctype,
         detected_type := some di.ctype } : ETL.CompatIssue) ∈
        (ETL.compare_with_current_schema det r).compatibility_issues) ∧
    ((ETL.compare_with_current_schema det r).requires_migration = false ↔
      (ETL.compare_with_current_schema det r).schema_changes = [] ∧
      (ETL.compare_with_current_schema det r).compatibility_issues = []) := by
  refine ⟨?_, ?_, ?_, ?_⟩
  · intro c info hdet hcur
    constructor
    · simp only [ETL.compare_with_current_schema, List.mem_append]
      left
      exact List.mem_map.mpr
        ⟨(c, info),
         List.mem_filter.mpr ⟨ETL.lookupCol_mem hdet, by simp [hcur]⟩, rfl⟩
    · intro i hi
      simp only [ETL.compare_with_current_schema, List.mem_append] at hi
      rcases hi with hi | hi
      · rcases List.mem_filterMap.mp hi with ⟨p, hp, hsome⟩
        have hpcur := (List.mem_filter.mp hp).1
        by_cases hreq : p.2.required
        · simp only [hreq, if_true, Option.some.injEq] at hsome
          intro hcol
          rw [← hsome] at hcol
          rw [← hcol] at hcur
          have := ETL.lookupCol_isSome_of_mem hpcur
          simp [hcur] at this
        · simp [hreq] at hsome
      · rcases List.mem_filterMap.mp hi with ⟨p, hp, hsome⟩
        have hpcur := (List.mem_filter.mp hp).1
        cases hdd : ETL.lookupCol det p.1 with
        | none => simp [hdd] at hsome
        | some dinfo =>
          simp only [hdd] at hsome
          by_cases hne : p.2.ctype ≠ dinfo.ctype
          · rw [if_pos hne] at hsome
            have hsome' := Option.some.inj hsome
            intro hcol
            rw [← hsome'] at hcol
            rw [← hcol] at hcur
            have := ETL.lookupCol_isSome_of_mem hpcur
            simp [hcur] at this
          · simp [hne] at hsome
  · intro c info hcur hreq hdet
    simp only [ETL.compare_with_current_schema, List.mem_append]
    left
    exact List.mem_filterMap.mpr
      ⟨(c, info),
       List.mem_filter.mpr ⟨ETL.lookupCol_mem hcur, by simp [hdet]⟩,
       by simp [hreq]⟩
  · intro c ci di hcur hdet hne
    simp only [ETL.compare_with_current_schema, List.mem_append]
    right
    exact List.mem_filterMap.mpr
      ⟨(c, ci),
       List.mem_filter.mpr ⟨ETL.lookupCol_mem hcur, by simp [hdet]⟩,
       by simp [hdet, hne]⟩
  · simp [ETL.compare_with_current_schema, List.isEmpty_iff]

/-- Witness for C6 (amended) against the default registry, with `email` new,
`user_id` missing-required, and `age` type-drifted to string. -/
theorem compare_c6_witness :
    ETL.SchemaChange.column_added "email" ⟨.stringT, false⟩ ∈
      (ETL.compare_with_current_schema ETL.detNewAndMismatched
        ETL.defaultRegistry).schema_changes ∧
    ({ itype := .required_column_missing, column := "user_id",
       severity := "high" } : ETL.CompatIssue) ∈
      (ETL.compare_with_current_schema ETL.detNewAndMismatched
        ETL.defaultRegistry).compatibility_issues ∧
    ({ itype := .type_mismatch, column := "age", severity := "medium",
       current_type := some .integerT,
       detected_type := some .stringT } : ETL.CompatIssue) ∈
      (ETL.compare_with_current_schema ETL.detNewAndMismatched
        ETL.defaultRegistry).compatibility_issues := by
  have h := compare_c6_amended ETL.detNewAndMismatched ETL.defaultRegistry
  exact ⟨(h.1 "email" ⟨.stringT, false⟩ (by decide) (by decide)).1,
         h.2.1 "user_id" ⟨.stringT, true⟩ (by decide) (by decide) (by decide),
         h.2.2.1 "age" ⟨.integerT, true⟩ ⟨.stringT, true⟩ (by decide)
           (by decide) (by decide)⟩

/-- C4 (counterexample): an applied-DDL failure is neither fatal nor does it
stop the registry from advancing.  Against the default registry, a dataset
carrying a new `email` column and an engine whose ALTER TABLE fails:
`apply_schema_changes` returns `False`, `migration_applied` stays `False`,
yet `process_data_with_schema_evolution` returns normally (no error on the
report) and the registry has been advanced to version 2 with the detected
schema stored. -/
theorem evolution_c4_counterexample :
    (ETL.process_data_with_schema_evolution ETL.today0 ETL.defaultRegistry
      ETL.dfWithEmail (some ⟨true, false⟩)).2.1.migration_applied = false ∧
    (ETL.process_data_with_schema_evolution ETL.today0 ETL.defaultRegistry
      ETL.dfWithEmail (some ⟨true, false⟩)).2.1.error = none ∧
    (ETL.process_data_with_schema_evolution ETL.today0 ETL.defaultRegistry
      ETL.dfWithEmail (some ⟨true, false⟩)).2.2.current_version = 2 ∧
    (ETL.lookupSchema (ETL.process_data_with_schema_evolution ETL.today0
      ETL.defaultRegistry ETL.dfWithEmail
      (some ⟨true, false⟩)).2.2.schemas 2).isSome = true := by
  decide

/-- C4 (amended): whenever applying the DDL schema changes fails inside the
migrator's `try` (the engine accepts the migration-history table but the
ALTER TABLE statements fail) and the diff carries schema changes, the run is
NOT fatal — `process_data_with_schema_evolution` returns normally with
`migration_applied = False` and no error on the report — and the registry IS
advanced anyway: its current version becomes the old version plus one. -/
theorem evolution_c4_amended (today : Nat × Nat × Nat) (reg : ETL.Registry)
    (df : ETL.DF) (eng : ETL.Engine)
    (htab : eng.migration_table_ok = true) (hddl : eng.ddl_ok = false)
    (hchanges : (ETL.compare_with_current_schema
      (ETL.detect_schema_from_dataframe df) reg).schema_changes ≠ []) :
    (ETL.process_data_with_schema_evolution today reg df
      (some eng)).2.1.migration_applied = false ∧
    (ETL.process_data_with_schema_evolution today reg df
      (some eng)).2.1.error = none ∧
    (ETL.process_data_with_schema_evolution today reg df
      (some eng)).2.2.current_version = reg.current_version + 1 := by
  have hne : (ETL.compare_with_current_schema
      (ETL.detect_schema_from_dataframe df) reg).schema_changes.isEmpty
      = false := by
    simpa [List.isEmpty_iff] using hchanges
  have hreq : (ETL.compare_with_current_schema
      (ETL.detect_schema_from_dataframe df) reg).requires_migration
      = true := by
    have hmk : (ETL.compare_with_current_schema
        (ETL.detect_schema_from_dataframe df) reg).requires_migration
        = (!(ETL.compare_with_current_schema
              (ETL.detect_schema_from_dataframe df) reg).schema_changes.isEmpty ||
           !(ETL.compare_with_current_schema
              (ETL.detect_schema_from_dataframe df) reg).compatibility_issues.isEmpty) :=
      rfl
    rw [hmk, hne]
    simp
  have happly : ETL.apply_schema_changes eng
      (ETL.compare_with_current_schema
        (ETL.detect_schema_from_dataframe df) reg).schema_changes
      = .ok false := by
    simp [ETL.apply_schema_changes, hne, htab, hddl]
  simp only [ETL.process_data_with_schema_evolution, hreq, if_true, hne,
    Bool.not_false, if_true, happly, ETL.add_schema_version]
  refine ⟨?_, ?_, ?_⟩ <;> first
  | trivial
  | (split <;> simp_all)

/-- Witness for C4 (amended) at the concrete failing-DDL scenario. -/
theorem evolution_c4_amended_witness :
    (ETL.process_data_with_schema_evolution ETL.today0 ETL.defaultRegistry
      ETL.dfWithEmail (some ⟨true, false⟩)).2.1.migration_applied = false ∧
    (ETL.process_data_with_schema_evolution ETL.today0 ETL.defaultRegistry
      ETL.dfWithEmail (some ⟨true, false⟩)).2.1.error = none ∧
    (ETL.process_data_with_schema_evolution ETL.today0 ETL.defaultRegistry
      ETL.dfWithEmail (some ⟨true, false⟩)).2.2.current_version =
      ETL.defaultRegistry.current_version + 1 :=
  evolution_c4_amended ETL.today0 ETL.defaultRegistry ETL.dfWithEmail
    ⟨true, false⟩ rfl rfl (by decide)

/-- C5 (counterexample): against a registry whose current schema marks
`email` required, a dataset without `email` triggers a
`required_column_missing` issue, but `_handle_compatibility_issues` has no
default policy branch for `email` and silently does nothing: the run
proceeds — `process_data_with_schema_evolution` returns normally, with no
error recorded and no `SchemaIncompatibility` failure — and the returned
dataset still lacks the required `email` column. -/
theorem evolution_c5_counterexample :
    ((ETL.process_data_with_schema_evolution ETL.today0 ETL.regRequiredEmail
      ETL.dfStd none).1.hasCol "email") = false ∧
    (ETL.process_data_with_schema_evolution ETL.today0 ETL.regRequiredEmail
      ETL.dfStd none).2.1.error = none ∧
    (ETL.process_data_with_schema_evolution ETL.today0 ETL.regRequiredEmail
      ETL.dfStd none).2.1.compatibility_issues.any
        (fun i => i.itype = .required_column_missing && i.column = "email")
      = true := by
  decide

/-- C5 (amended): for a `required_column_missing` compatibility issue, the
handler synthesizes the documented per-column default — a sequential
surrogate key 1..n for `user_id`, the integer zero for `age`, boolean `True`
for `is_active`, today's date for `sign_up_date` — and for any other column
name it applies no default at all and leaves the dataset unchanged, so the
run proceeds with that required column absent; no `SchemaIncompatibility`
error is ever raised. -/
theorem evolution_c5_amended (today : Nat × Nat × Nat) (df : ETL.DF)
    (issue : ETL.CompatIssue)
    (hty : issue.itype = .required_column_missing) :
    (issue.column = "user_id" →
      ETL.handle_one_issue today df issue =
        df.setCol ⟨"user_id", .int64,
          (List.range df.nrows).map (fun i => .vint (i + 1))⟩) ∧
    (issue.column = "age" →
      ETL.handle_one_issue today df issue =
        df.setCol ⟨"age", .int64, List.replicate df.nrows (.vint 0)⟩) ∧
    (issue.column = "is_active" →
      ETL.handle_one_issue today df issue =
        df.setCol ⟨"is_active", .boolDt,
          List.replicate df.nrows (.vbool true)⟩) ∧
    (issue.column = "sign_up_date" →
      ETL.handle_one_issue today df issue =
        df.setCol ⟨"sign_up_date", .object,
          List.replicate df.nrows (.vdate today.1 today.2.1 today.2.2)⟩) ∧
    (issue.column ∉ ["user_id", "age", "is_active", "sign_up_date"] →
      ETL.handle_one_issue today df issue = df) := by
  refine ⟨?_, ?_, ?_, ?_, ?_⟩ <;> intro hcol <;>
    simp_all [ETL.handle_one_issue]

/-- Witness for C5 (amended): the `email` fall-through and the `age` default
at a concrete dataset. -/
theorem evolution_c5_amended_witness :
    (ETL.handle_one_issue ETL.today0 ETL.dfStd
      { itype := .required_column_missing, column := "email",
        severity := "high" } = ETL.dfStd) ∧
    (ETL.handle_one_issue ETL.today0 ETL.dfStd
      { itype := .required_column_missing, column := "age",
        severity := "high" } =
      ETL.dfStd.setCol ⟨"age", .int64,
        List.replicate ETL.dfStd.nrows (.vint 0)⟩) :=
  ⟨(evolution_c5_amended ETL.today0 ETL.dfStd
      { itype := .required_column_missing, column := "email",
        severity := "high" } rfl).2.2.2.2 (by decide),
   (evolution_c5_amended ETL.today0 ETL.dfStd
      { itype := .required_column_missing, column := "age",
        severity := "high" } rfl).2.1 rfl⟩

/-- C10: for every heap and every valid reference to the caller's DataFrame,
`transform` leaves the caller's object untouched (it works on the copy it
allocates), and whenever it succeeds, the returned frame carries exactly the
columns `user_id`, `age`, `sign_up_date`, `is_active` in that fixed order —
every other column, including any column added by schema evolution, has been
dropped by the final `df[required_columns]` selection. -/
theorem transform_c10 (h : ETL.Heap) (r : Nat) (hr : r < h.frames.length) :
    (ETL.transform h r).1.frames.get? r = h.frames.get? r ∧
    (∀ ready, (ETL.transform h r).2 = .ok ready →
      ((ETL.transform h r).1.get ready).cols.map ETL.Column.name =
        ETL.transformRequiredColumns) := by
  have hge := ETL.transformCopyPhase_ref_ge h r
  have hlt := ETL.transformCopyPhase_ref_lt h r
  have hpres := ETL.transformCopyPhase_get?_lt h r hr
  unfold ETL.transform
  dsimp only
  rcases hP : ETL.transformCopyPhase h r with ⟨h2, df⟩
  rw [hP] at hge hlt hpres
  dsimp only at hge hlt hpres
  have hner : df ≠ r := by omega
  split
  · exact ⟨hpres, fun ready hready => by cases hready⟩
  next hmiss =>
    have hmiss' : (ETL.transformRequiredColumns.filter
        (fun c => !(h2.get df).hasCol c)) = [] := by
      simpa using hmiss
    have hcols : ∀ c ∈ ETL.transformRequiredColumns,
        (h2.get df).hasCol c = true := by
      intro c hc
      have := List.filter_eq_nil_iff.mp hmiss' c hc
      simpa using this
    have l3 : (ETL.transformColGuard h2 df "age"
        ETL.transformAgeFix).frames.length = h2.frames.length :=
      ETL.transformColGuard_length h2 df "age" ETL.transformAgeFix
    have hdf3 : df < (ETL.transformColGuard h2 df "age"
        ETL.transformAgeFix).frames.length := by omega
    have e3 : (ETL.transformColGuard h2 df "age"
        ETL.transformAgeFix).get df = ETL.transformAgeFix (h2.get df) := by
      rw [ETL.transformColGuard_get_self h2 "age" ETL.transformAgeFix hlt,
        if_pos (hcols "age" (by simp [ETL.transformRequiredColumns]))]
    set h3 := ETL.transformColGuard h2 df "age" ETL.transformAgeFix with hh3
    have l4 : (ETL.transformColGuard h3 df "is_active"
        ETL.transformActiveFix).frames.length = h3.frames.length :=
      ETL.transformColGuard_length h3 df "is_active" ETL.transformActiveFix
    have hdf4 : df < (ETL.transformColGuard h3 df "is_active"
        ETL.transformActiveFix).frames.length := by omega
    have e4 : (ETL.transformColGuard h3 df "is_active"
        ETL.transformActiveFix).get df =
        ETL.transformActiveFix (ETL.transformAgeFix (h2.get df)) := by
      rw [ETL.transformColGuard_get_self h3 "is_active"
        ETL.transformActiveFix hdf3, e3]
      rw [if_pos]
      rw [ETL.transformAgeFix_hasCol]
      exact hcols "is_active" (by simp [ETL.transformRequiredColumns])
    set h4 := ETL.transformColGuard h3 df "is_active" ETL.transformActiveFix
      with hh4
    have l5 : (ETL.transformColGuard h4 df "sign_up_date"
        ETL.transformDateFix).frames.length = h4.frames.length :=
      ETL.transformColGuard_length h4 df "sign_up_date" ETL.transformDateFix
    have hdf5 : df < (ETL.transformColGuard h4 df "sign_up_date"
        ETL.transformDateFix).frames.length := by omega
    have e5 : (ETL.transformColGuard h4 df "sign_up_date"
        ETL.transformDateFix).get df =
        ETL.transformDateFix (ETL.transformActiveFix
          (ETL.transformAgeFix (h2.get df))) := by
      rw [ETL.transformColGuard_get_self h4 "sign_up_date"
        ETL.transformDateFix hdf4, e4]
      rw [if_pos]
      rw [ETL.transformActiveFix_hasCol, ETL.transformAgeFix_hasCol]
      exact hcols "sign_up_date" (by simp [ETL.transformRequiredColumns])
    set h5 := ETL.transformColGuard h4 df "sign_up_date" ETL.transformDateFix
      with hh5
    have l6 : (ETL.transformColGuard h5 df "user_id"
        ETL.transformUserIdFix).frames.length = h5.frames.length :=
      ETL.transformColGuard_length h5 df "user_id" ETL.transformUserIdFix
    have e6 : (ETL.transformColGuard h5 df "user_id"
        ETL.transformUserIdFix).get df =
        ETL.transformUserIdFix (ETL.transformDateFix (ETL.transformActiveFix
          (ETL.transformAgeFix (h2.get df)))) := by
      rw [ETL.transformColGuard_get_self h5 "user_id"
        ETL.transformUserIdFix hdf5, e5]
      rw [if_pos]
      rw [ETL.transformDateFix_hasCol, ETL.transformActiveFix_hasCol,
        ETL.transformAgeFix_hasCol]
      exact hcols "user_id" (by simp [ETL.transformRequiredColumns])
    set h6 := ETL.transformColGuard h5 df "user_id" ETL.transformUserIdFix
      with hh6
    have hr6 : r < h6.frames.length := by omega
    constructor
    · dsimp only
      rw [ETL.Heap.get?_alloc_lt _ _ hr6,
        hh6, ETL.transformColGuard_get?_ne h5 "user_id"
          ETL.transformUserIdFix hner,
        hh5, ETL.transformColGuard_get?_ne h4 "sign_up_date"
          ETL.transformDateFix hner,
        hh4, ETL.transformColGuard_get?_ne h3 "is_active"
          ETL.transformActiveFix hner,
        hh3, ETL.transformColGuard_get?_ne h2 "age"
          ETL.transformAgeFix hner]
      exact hpres
    · intro ready hready
      dsimp only at hready ⊢
      have hready' : (h6.alloc ((h6.get df).select
          ETL.transformRequiredColumns)).2 = ready := by
        cases hready
        rfl
      rw [← hready', ETL.Heap.alloc_get_new]
      apply ETL.DF.select_names
      intro n hn
      rw [e6, ETL.transformUserIdFix_hasCol, ETL.transformDateFix_hasCol,
        ETL.transformActiveFix_hasCol, ETL.transformAgeFix_hasCol]
      exact hcols n hn

/-- Witness for C10 on a singleton heap holding a concrete five-column
frame (the four standard columns plus `email`). -/
theorem transform_c10_witness :
    (ETL.transform ⟨[ETL.dfWithEmail]⟩ 0).1.frames.get? 0 =
      (⟨[ETL.dfWithEmail]⟩ : ETL.Heap).frames.get? 0 ∧
    (∀ ready, (ETL.transform ⟨[ETL.dfWithEmail]⟩ 0).2 = .ok ready →
      ((ETL.transform ⟨[ETL.dfWithEmail]⟩ 0).1.get ready).cols.map
          ETL.Column.name = ETL.transformRequiredColumns) :=
  transform_c10 ⟨[ETL.dfWithEmail]⟩ 0 (by decide)

/-- C1 (code bug): a failing database load does NOT propagate, is NOT
retried to exhaustion, and the run IS reported as a success.  In an
environment where the store connection fails during load (the
`ConnectionError` raised by `connect_to_postgres` inside `load_data` is
caught by `load_data`'s blanket `except`, which returns a
`success: False, rows_loaded: 0` dict), the retry wrapper sees a normal
return and stops after one attempt, and `run_pipeline` ignores the
`success` flag: the run result says `success = True` with 0 rows loaded. -/
theorem pipeline_c1_bug :
    (ETL.run_pipeline ETL.envLoadFail).1.success = true ∧
    (ETL.run_pipeline ETL.envLoadFail).1.rows_loaded = 0 ∧
    (ETL.run_pipeline ETL.envLoadFail).2.load_attempts = 1 ∧
    ETL.envLoadFail.store.connect_ok = false ∧
    ETL.load_data ETL.envLoadFail.store ETL.dfStd =
      .ok ⟨false, 0, "Load failed: Database connection failed"⟩ :=
  ⟨by decide, by decide, by decide, by decide, rfl⟩

/-- C2 (counterexample): a blocking dataset-level quality issue does NOT
fail the run before extraction retry logic is invoked.  The quality gate
runs inside `_extract_with_validation`, which is the operation handed to
`retry_with_backoff`, so a dataset with a blocking issue is re-extracted
and re-validated four times before the run transitions to Failed. -/
theorem pipeline_c2_counterexample :
    (ETL.run_pipeline ETL.envQualityBad).1.success = false ∧
    (ETL.run_pipeline ETL.envQualityBad).2.extract_attempts = 4 := by
  decide

/-- If the first four attempts all fail, `retry_with_backoff 3 1` makes
exactly four attempts and surfaces the fourth error. -/
theorem retry_three_all_fail (op : Nat → Except String α)
    (h : ∀ i, i ≤ 3 → ∃ e, op i = .error e) :
    ∃ e, ETL.retry_with_backoff 3 1 op = (.error e, 4, [1, 2, 4]) := by
  obtain ⟨e0, h0⟩ := h 0 (by norm_num)
  obtain ⟨e1, h1⟩ := h 1 (by norm_num)
  obtain ⟨e2, h2⟩ := h 2 (by norm_num)
  obtain ⟨e3, h3⟩ := h 3 (by norm_num)
  refine ⟨e3, ?_⟩
  simp [ETL.retry_with_backoff, ETL.retryGo, h0, h1, h2, h3]
  norm_num

/-- Every failure path of `run_pipeline` goes through the single `except`
clause (`failRun`); the only other outcome is the success dict, which
attempts no quarantine. -/
theorem run_pipeline_cases (env : ETL.PipelineEnv) :
    (∃ stage e a b, ETL.run_pipeline env = ETL.failRun env stage e a b) ∨
    ((ETL.run_pipeline env).1.success = true ∧
     (ETL.run_pipeline env).2.quarantine_attempted = false ∧
     (ETL.run_pipeline env).2.quarantine_record_created = false) := by
  unfold ETL.run_pipeline
  split
  · exact .inl ⟨_, _, _, _, rfl⟩
  · split
    · exact .inl ⟨_, _, _, _, rfl⟩
    · split
      · exact .inl ⟨_, _, _, _, rfl⟩
      · dsimp only
        split
        · exact .inl ⟨_, _, _, _, rfl⟩
        · split
          · exact .inl ⟨_, _, _, _, rfl⟩
          · exact .inr ⟨rfl, rfl, rfl⟩

/-- The failure dict and trace produced by the `except` clause. -/
theorem failRun_spec (env : ETL.PipelineEnv) (stage e : String) (a b : Nat) :
    (ETL.failRun env stage e a b).1.success = false ∧
    (ETL.failRun env stage e a b).1.failed_stage = some stage ∧
    (ETL.failRun env stage e a b).1.error = some e ∧
    (ETL.failRun env stage e a b).2.quarantine_attempted = true ∧
    ((ETL.failRun env stage e a b).2.quarantine_record_created = false →
      (ETL.failRun env stage e a b).1.quarantine_path = some "") ∧
    (ETL.failRun env stage e a b).2.archive_record_created = false := by
  unfold ETL.failRun ETL.quarantine_file
  split_ifs <;> simp

/-- C2 (amended): the dataset-level quality gate runs inside the
retry-wrapped extraction step, so a blocking quality issue is retried along
with extraction and the run transitions to Failed only after all four
attempts; a preflight failure, by contrast, fails the run immediately with
zero extraction attempts (no retry logic invoked).  (Schema-evolution
errors never fail the run at all — see the C4 theorems: they are caught
inside `process_data_with_schema_evolution`.) -/
theorem pipeline_c2_amended (env : ETL.PipelineEnv) :
    (ETL.preflight_passed env = false →
      (ETL.run_pipeline env).1.success = false ∧
      (ETL.run_pipeline env).2.extract_attempts = 0) ∧
    (ETL.preflight_passed env = true →
      (∀ n, n ≤ 3 → ∃ e, ETL.extract_with_validation env n = .error e) →
      (ETL.run_pipeline env).1.success = false ∧
      (ETL.run_pipeline env).2.extract_attempts = 4) := by
  constructor
  · intro hpre
    unfold ETL.run_pipeline
    rw [hpre]
    simp [ETL.failRun]
  · intro hpre hq
    obtain ⟨e, hr⟩ := retry_three_all_fail _ hq
    unfold ETL.run_pipeline
    rw [hpre, hr]
    simp [ETL.failRun]

/-- Witness for C2 (amended): a failing pre-flight run makes no extraction
attempt; a run with a permanently blocking quality issue makes four. -/
theorem pipeline_c2_amended_witness :
    ((ETL.run_pipeline ETL.envPreflightFail).1.success = false ∧
     (ETL.run_pipeline ETL.envPreflightFail).2.extract_attempts = 0) ∧
    ((ETL.run_pipeline ETL.envQualityBad).1.success = false ∧
     (ETL.run_pipeline ETL.envQualityBad).2.extract_attempts = 4) :=
  ⟨(pipeline_c2_amended ETL.envPreflightFail).1 rfl,
   (pipeline_c2_amended ETL.envQualityBad).2 rfl
     (fun _ _ =>
       ⟨"Data quality issues: age column 60% null exceeds threshold 10%",
        rfl⟩)⟩

/-- C8 (counterexample): when the quarantine attempt itself fails, the
original failure is still reported, but there is NO secondary
quarantine-failure annotation: the failure dict is identical to the one of
the same run with a working quarantine directory except that
`quarantine_path` is the empty string — no field records that quarantine
failed. -/
theorem pipeline_c8_counterexample :
    (ETL.run_pipeline ETL.envExtractFailQBad).1 =
      { (ETL.run_pipeline ETL.envExtractFail).1 with
        quarantine_path := some "" } ∧
    (ETL.run_pipeline ETL.envExtractFail).1.quarantine_path =
      some "data/deadletter/quarantined" ∧
    (ETL.run_pipeline ETL.envExtractFailQBad).2.quarantine_attempted
      = true ∧
    (ETL.run_pipeline ETL.envExtractFailQBad).2.quarantine_record_created
      = false := by
  decide

/-- C8 (amended): every failing run returns (never throws) a structured
result dict carrying a failing-stage value and a human-readable error
message; quarantine is attempted best-effort exactly once; and if the
quarantine attempt fails, the original failure is still reported with an
empty `quarantine_path` — without any secondary quarantine-failure
annotation. -/
theorem pipeline_c8_amended (env : ETL.PipelineEnv)
    (hfail : (ETL.run_pipeline env).1.success = false) :
    (ETL.run_pipeline env).1.failed_stage.isSome = true ∧
    (ETL.run_pipeline env).1.error.isSome = true ∧
    (ETL.run_pipeline env).2.quarantine_attempted = true ∧
    ((ETL.run_pipeline env).2.quarantine_record_created = false →
      (ETL.run_pipeline env).1.quarantine_path = some "") := by
  rcases run_pipeline_cases env with ⟨stage, e, a, b, heq⟩ | ⟨hs, _, _⟩
  · rw [heq]
    have h := failRun_spec env stage e a b
    exact ⟨by rw [h.2.1]; rfl, by rw [h.2.2.1]; rfl,
           h.2.2.2.1, h.2.2.2.2.1⟩
  · rw [hs] at hfail
    cases hfail

/-- Witness for C8 (amended) at a run whose extraction always fails and
whose quarantine copy also fails. -/
theorem pipeline_c8_amended_witness :
    (ETL.run_pipeline ETL.envExtractFailQBad).1.failed_stage.isSome
      = true ∧
    (ETL.run_pipeline ETL.envExtractFailQBad).1.error.isSome = true ∧
    (ETL.run_pipeline ETL.envExtractFailQBad).2.quarantine_attempted
      = true ∧
    ((ETL.run_pipeline ETL.envExtractFailQBad).2.quarantine_record_created
        = false →
      (ETL.run_pipeline ETL.envExtractFailQBad).1.quarantine_path
        = some "") :=
  pipeline_c8_amended ETL.envExtractFailQBad (by decide)

/-- C9: within a single run, the quarantine and archive outcomes are
mutually exclusive — a quarantine record is created only in the `except`
clause, an archive record only in the success path's post-processing, and
no run reaches both. -/
theorem pipeline_c9 (env : ETL.PipelineEnv) :
    ¬((ETL.run_pipeline env).2.archive_record_created = true ∧
      (ETL.run_pipeline env).2.quarantine_record_created = true) := by
  rintro ⟨ha, hq⟩
  rcases run_pipeline_cases env with ⟨stage, e, a, b, heq⟩ | ⟨_, _, hqr⟩
  · rw [heq] at ha
    rw [(failRun_spec env stage e a b).2.2.2.2.2] at ha
    cases ha
  · rw [hqr] at hq
    cases hq
